import Mathlib

/-!
Verification of the quiz feature of `judge-gpt-quiz-fe`:
the `/api/quiz` route handlers (`GET`, `POST`) and the `QuizView`
component's submit logic, shallowly embedded from the TypeScript source.
-/

namespace JudgeGptQuiz

/-- A JavaScript runtime value, as far as the route handlers observe one:
`null`, `undefined`, booleans, numbers, strings, arrays and plain objects.
Numbers are modelled as integers; the handlers only inspect `typeof` and
truthiness of numbers, never their arithmetic. -/
inductive JsValue where
  | vNull
  | vUndefined
  | vBool (b : Bool)
  | vNum (n : Int)
  | vStr (s : String)
  | vArr (elems : List JsValue)
  | vObj (fields : List (String × JsValue))

/-- JavaScript truthiness: `null`, `undefined`, `false`, `0` and `""` are
falsy; every array and object (including the empty array `[]`) is truthy. -/
def jsTruthy : JsValue → Bool
  | .vNull => false
  | .vUndefined => false
  | .vBool b => b
  | .vNum n => n != 0
  | .vStr s => s != ""
  | .vArr _ => true
  | .vObj _ => true

/-- The JavaScript `typeof` operator on the modelled values
(`typeof null` is `"object"`). -/
def jsTypeof : JsValue → String
  | .vNull => "object"
  | .vUndefined => "undefined"
  | .vBool _ => "boolean"
  | .vNum _ => "number"
  | .vStr _ => "string"
  | .vArr _ => "object"
  | .vObj _ => "object"

/-- Property access used by the destructuring
`const { articleUid, ... } = await req.json()`: a missing key on an object
reads as `undefined`, as does any named property of a primitive or array
in the handler's field set. (Access on `null`/`undefined` throws instead;
see `jsDestructurable`.) -/
def jsField (v : JsValue) (key : String) : JsValue :=
  match v with
  | .vObj fields => (fields.lookup key).getD .vUndefined
  | _ => .vUndefined

/-- Destructuring `null` or `undefined` throws a `TypeError`;
destructuring any other value succeeds (fields possibly `undefined`). -/
def jsDestructurable : JsValue → Bool
  | .vNull => false
  | .vUndefined => false
  | _ => true

/-- `searchParams.get(name)` returns a string or `null`; its JavaScript
truthiness: `null` and `""` are falsy. -/
def optStrTruthy : Option String → Bool
  | none => false
  | some s => s != ""

/-- `typeof` of a `searchParams.get` result: `"object"` for `null`,
always `"string"` otherwise. -/
def optStrTypeof : Option String → String
  | none => "object"
  | some _ => "string"

/-- The body of `NextResponse.json({error: msg}, ...)`. -/
def errBody (msg : String) : JsValue := .vObj [("error", .vStr msg)]

/-- A `NextResponse.json` result: HTTP status plus JSON body. -/
structure ApiResponse where
  status : Nat
  body : JsValue

/-- The observable input of the `GET /api/quiz` handler:
whether `new URL(req.url).searchParams` is truthy (it always is for a real
request, but the code guards on it), and the two query parameters. -/
structure GetRequest where
  searchParamsOk : Bool
  userUid : Option String
  locale : Option String

/-- Result of awaiting a collaborator call: either a returned value or a
thrown exception (caught by the handler's `catch` block). -/
abbrev JsOutcome := Except Unit JsValue

/-- `GET /api/quiz`, embedded from `async function GET(req)` in the route
file. The collaborator `fetchArticlesForUser` is a parameter taking the
single `string` argument the code passes; the second component of the
result records the arguments of every collaborator call the handler made. -/
def GET (req : GetRequest) (fetchArticlesForUser : String → JsOutcome) :
    ApiResponse × List String :=
  if req.searchParamsOk = false then
    (⟨400, errBody "Invalid query parameters"⟩, [])
  else if optStrTruthy req.userUid = false then
    (⟨400, errBody "User ID is required"⟩, [])
  else if optStrTruthy req.locale = false then
    (⟨400, errBody "Locale is required"⟩, [])
  else if optStrTypeof req.userUid ≠ "string" then
    (⟨400, errBody "Invalid User ID"⟩, [])
  else if optStrTypeof req.locale ≠ "string" then
    (⟨400, errBody "Invalid Locale"⟩, [])
  else
    -- here `req.userUid = some u` with `u ≠ ""`, by the truthiness check
    let u := req.userUid.getD ""
    match fetchArticlesForUser u with
    | .error _ => (⟨500, errBody "Internal Server Error"⟩, [u])
    | .ok questions =>
      if jsTruthy questions = false then
        (⟨404, errBody "Quiz questions not found"⟩, [u])
      else
        (⟨200, questions⟩, [u])

/-- The observable input of the `POST /api/quiz` handler. `body` models
`req.body` and the subsequent `await req.json()`: `none` when `req.body`
is null, `some (.error ())` when the body is present but `req.json()`
throws (unparseable JSON), `some (.ok v)` when it parses to `v`. -/
structure PostRequest where
  searchParamsOk : Bool
  userUid : Option String
  body : Option JsOutcome

/-- The argument object of the single `storeUserResponse` call:
`userUid` comes from the query (a string); the other four fields are the
raw destructured JSON values, passed after validation. -/
structure StoreArgs where
  userUid : String
  articleUid : JsValue
  userRespondedIsHuman : JsValue
  userRespondedIsFake : JsValue
  timeToRespond : JsValue

/-- `POST /api/quiz`, embedded from `async function POST(req)` in the
route file. The collaborator `storeUserResponse` is a parameter; the
second component of the result records every collaborator call made. -/
def POST (req : PostRequest) (storeUserResponse : StoreArgs → JsOutcome) :
    ApiResponse × List StoreArgs :=
  if req.searchParamsOk = false then
    (⟨400, errBody "Invalid query parameters"⟩, [])
  else if optStrTruthy req.userUid = false then
    (⟨400, errBody "User ID is required"⟩, [])
  else if optStrTypeof req.userUid ≠ "string" then
    (⟨400, errBody "Invalid User ID"⟩, [])
  else
    match req.body with
    | none => (⟨400, errBody "Invalid request body"⟩, [])
    | some parsed =>
      match parsed with
      | .error _ =>
        -- `req.json()` threw; control reaches the catch block
        (⟨500, errBody "Internal Server Error"⟩, [])
      | .ok json =>
        if jsDestructurable json = false then
          -- destructuring null/undefined throws; caught by the catch block
          (⟨500, errBody "Internal Server Error"⟩, [])
        else
          let articleUid := jsField json "articleUid"
          let userRespondedIsHuman := jsField json "userRespondedIsHuman"
          let userRespondedIsFake := jsField json "userRespondedIsFake"
          let timeToRespond := jsField json "timeToRespond"
          if jsTruthy articleUid = false then
            (⟨400, errBody "Article ID is required"⟩, [])
          else if jsTypeof articleUid ≠ "string" then
            (⟨400, errBody "Invalid Article ID"⟩, [])
          else if jsTypeof userRespondedIsHuman ≠ "boolean" then
            (⟨400, errBody "Invalid user response"⟩, [])
          else if jsTypeof userRespondedIsFake ≠ "boolean" then
            (⟨400, errBody "Invalid user response"⟩, [])
          else if jsTypeof timeToRespond ≠ "number" then
            (⟨400, errBody "Invalid time to respond"⟩, [])
          else
            let args : StoreArgs :=
              ⟨req.userUid.getD "", articleUid, userRespondedIsHuman,
                userRespondedIsFake, timeToRespond⟩
            match storeUserResponse args with
            | .error _ => (⟨500, errBody "Internal Server Error"⟩, [args])
            | .ok isCorrect =>
              if jsTypeof isCorrect ≠ "boolean" then
                (⟨404, errBody "User response not stored"⟩, [args])
              else
                (⟨200, .vObj [("isCorrect", isCorrect)]⟩, [args])

/-- The JSON object `{articleUid, userRespondedIsHuman, userRespondedIsFake,
timeToRespond}` a client sends to `POST /api/quiz`, with arbitrary values. -/
def postBody (articleUid userRespondedIsHuman userRespondedIsFake timeToRespond : JsValue) :
    JsValue :=
  .vObj [("articleUid", articleUid),
         ("userRespondedIsHuman", userRespondedIsHuman),
         ("userRespondedIsFake", userRespondedIsFake),
         ("timeToRespond", timeToRespond)]

/- ## QuizView component -/

/-- The `"human" | "ai"` selector values of `QuizView`. -/
inductive HumanAiOption where
  | human
  | ai
deriving DecidableEq

/-- The `"real" | "fake"` selector values of `QuizView`. -/
inductive RealFakeOption where
  | real
  | fake
deriving DecidableEq

/-- An article of the quiz session (`models/Article`). -/
structure Article where
  uid : String
  headline : String
  content : String

/-- The `QuizSession` prop: ordered articles plus the current index. -/
structure QuizSession where
  articles : List Article
  currentArticleIndex : Nat

/-- The argument object `QuizView` passes to `onSubmitCallback`. -/
structure SubmitPayload where
  humanOptionSelected : Bool
  isFakeSelected : Bool
deriving DecidableEq

/-- The props of `QuizView` that the submit control reads: the session and
the two tri-state selectors (`null` is `none`). -/
structure QuizViewProps where
  quizSession : QuizSession
  humanAiOptionChecked : Option HumanAiOption
  realFakeOptionChecked : Option RealFakeOption

/-- The submit button's `disabled` attribute,
`!humanAiOptionChecked || !realFakeOptionChecked`: the selector strings
`"human"`, `"ai"`, `"real"`, `"fake"` are non-empty and hence truthy, so
only `null` is falsy. -/
def submitDisabled (p : QuizViewProps) : Bool :=
  p.humanAiOptionChecked.isNone || p.realFakeOptionChecked.isNone

/-- The submit button's `onClick` handler: the list of calls it makes to
`onSubmitCallback`. It fires only when both selectors are non-null
(rechecked inside the handler, independently of `disabled`), passing
`humanOptionSelected = (humanAiOptionChecked === "human")` and
`isFakeSelected = (realFakeOptionChecked === "fake")`. -/
def submitClick (p : QuizViewProps) : List SubmitPayload :=
  match p.humanAiOptionChecked, p.realFakeOptionChecked with
  | some h, some r =>
      [⟨decide (h = HumanAiOption.human), decide (r = RealFakeOption.fake)⟩]
  | _, _ => []

/- ## Theorems -/

/-- `typeof` of a string value. -/
theorem jsTypeof_vStr (s : String) : jsTypeof (.vStr s) = "string" := rfl

/-- `typeof` of a boolean value. -/
theorem jsTypeof_vBool (b : Bool) : jsTypeof (.vBool b) = "boolean" := rfl

/-- `typeof` of a number value. -/
theorem jsTypeof_vNum (n : Int) : jsTypeof (.vNum n) = "number" := rfl

/-- Truthiness of a string value. -/
theorem jsTruthy_vStr (s : String) : jsTruthy (.vStr s) = (s != "") := rfl

/-- A `postBody` object is destructurable. -/
theorem jsDestructurable_postBody (a h f t : JsValue) :
    jsDestructurable (postBody a h f t) = true := rfl

/-- Field access on a `postBody` object: `articleUid`. -/
theorem jsField_postBody_articleUid (a h f t : JsValue) :
    jsField (postBody a h f t) "articleUid" = a := rfl

/-- Field access on a `postBody` object: `userRespondedIsHuman`. -/
theorem jsField_postBody_isHuman (a h f t : JsValue) :
    jsField (postBody a h f t) "userRespondedIsHuman" = h := rfl

/-- Field access on a `postBody` object: `userRespondedIsFake`. -/
theorem jsField_postBody_isFake (a h f t : JsValue) :
    jsField (postBody a h f t) "userRespondedIsFake" = f := rfl

/-- Field access on a `postBody` object: `timeToRespond`. -/
theorem jsField_postBody_time (a h f t : JsValue) :
    jsField (postBody a h f t) "timeToRespond" = t := rfl

/-- C6: for every GET request, query parameters are checked with `userUid`
first: a missing `userUid` yields 400 `{error: "User ID is required"}`
(whatever `locale` is), and with `userUid` present a missing `locale`
yields 400 `{error: "Locale is required"}`. -/
theorem GET_missing_param_messages :
    (∀ (locale : Option String) (f : String → JsOutcome),
       (GET ⟨true, none, locale⟩ f).1 = ⟨400, errBody "User ID is required"⟩) ∧
    (∀ (u : String) (f : String → JsOutcome), u ≠ "" →
       (GET ⟨true, some u, none⟩ f).1 = ⟨400, errBody "Locale is required"⟩) := by
  constructor
  · intro locale f
    rfl
  · intro u f hu
    unfold GET
    simp [optStrTruthy, hu]

/-- Witness for `GET_missing_param_messages` at a concrete request. -/
theorem GET_missing_param_messages_witness :
    (GET ⟨true, some "u1", none⟩ (fun _ => .ok .vNull)).1 =
      ⟨400, errBody "Locale is required"⟩ :=
  GET_missing_param_messages.2 "u1" (fun _ => .ok .vNull) (by decide)

/-- C2 counterexample: when `fetchArticlesForUser` returns the empty array
(truthy in JavaScript), the GET handler responds 200 with the empty array,
not 404 as the claim states for an "empty" result. -/
theorem GET_empty_array_gives_200 :
    ((GET ⟨true, some "user1", some "en"⟩ (fun _ => .ok (.vArr []))).1.status = 200) ∧
    ((GET ⟨true, some "user1", some "en"⟩ (fun _ => .ok (.vArr []))).1.status ≠ 404) ∧
    ((GET ⟨true, some "user1", some "en"⟩ (fun _ => .ok (.vArr []))).1.body = .vArr []) :=
  ⟨rfl, by decide, rfl⟩

/-- C2 (amended): for a valid GET request, a falsy collaborator result
yields 404 `{error: "Quiz questions not found"}`; a truthy result — every
array, the empty one included — yields 200 with that result unchanged. -/
theorem GET_fetch_result_mapping (u l : String) (f : String → JsOutcome)
    (q : JsValue) (hu : u ≠ "") (hl : l ≠ "") (hq : f u = .ok q) :
    (jsTruthy q = false →
       (GET ⟨true, some u, some l⟩ f).1 = ⟨404, errBody "Quiz questions not found"⟩) ∧
    (jsTruthy q = true →
       (GET ⟨true, some u, some l⟩ f).1 = ⟨200, q⟩) := by
  unfold GET
  simp [optStrTruthy, optStrTypeof, hu, hl, hq]
  constructor <;> intro h <;> simp [h]

/-- Witness for `GET_fetch_result_mapping` at a concrete request. -/
theorem GET_fetch_result_mapping_witness :
    (GET ⟨true, some "u1", some "en"⟩ (fun _ => .ok (.vArr [.vStr "a"]))).1 =
      ⟨200, .vArr [.vStr "a"]⟩ :=
  (GET_fetch_result_mapping "u1" "en" (fun _ => .ok (.vArr [.vStr "a"]))
    (.vArr [.vStr "a"]) (by decide) (by decide) rfl).2 rfl

/-- C4: a GET request that passes validation calls the article-fetching
collaborator exactly once, with `userUid` as the only argument; `locale`
is validated but never forwarded. -/
theorem GET_calls_fetch_with_userUid_only (u l : String)
    (f : String → JsOutcome) (hu : u ≠ "") (hl : l ≠ "") :
    (GET ⟨true, some u, some l⟩ f).2 = [u] := by
  unfold GET
  simp [optStrTruthy, optStrTypeof, hu, hl]
  cases hfu : f u <;> simp [hfu]
  split <;> rfl

/-- Witness for `GET_calls_fetch_with_userUid_only` at a concrete request. -/
theorem GET_calls_fetch_with_userUid_only_witness :
    (GET ⟨true, some "u1", some "en"⟩ (fun _ => .ok .vNull)).2 = ["u1"] :=
  GET_calls_fetch_with_userUid_only "u1" "en" (fun _ => .ok .vNull)
    (by decide) (by decide)

/-- Helper: on a POST request whose query and body fields are all valid,
the handler reaches the single `storeUserResponse` call and maps its
outcome to the response. -/
theorem POST_postBody_valid (u a : String) (b1 b2 : Bool) (t : Int)
    (store : StoreArgs → JsOutcome) (hu : u ≠ "") (ha : a ≠ "") :
    POST ⟨true, some u, some (.ok (postBody (.vStr a) (.vBool b1) (.vBool b2) (.vNum t)))⟩
        store =
      (match store ⟨u, .vStr a, .vBool b1, .vBool b2, .vNum t⟩ with
       | .error _ =>
         (⟨500, errBody "Internal Server Error"⟩,
          [⟨u, .vStr a, .vBool b1, .vBool b2, .vNum t⟩])
       | .ok c =>
         if jsTypeof c ≠ "boolean" then
           (⟨404, errBody "User response not stored"⟩,
            [⟨u, .vStr a, .vBool b1, .vBool b2, .vNum t⟩])
         else
           (⟨200, .vObj [("isCorrect", c)]⟩,
            [⟨u, .vStr a, .vBool b1, .vBool b2, .vNum t⟩])) := by
  unfold POST
  simp [optStrTruthy, optStrTypeof, hu, ha, jsField_postBody_articleUid,
    jsField_postBody_isHuman, jsField_postBody_isFake, jsField_postBody_time,
    jsDestructurable_postBody, jsTruthy_vStr, jsTypeof_vStr, jsTypeof_vBool,
    jsTypeof_vNum]

/-- C5: for a POST request with all five fields valid, a collaborator
return of `true` maps to 200 `{isCorrect: true}`, `false` to
200 `{isCorrect: false}`, and any non-boolean return (e.g. `undefined`)
to 404 `{error: "User response not stored"}`. -/
theorem POST_store_result_mapping (u a : String) (b1 b2 : Bool) (t : Int)
    (store : StoreArgs → JsOutcome) (hu : u ≠ "") (ha : a ≠ "") :
    (∀ c : Bool, store ⟨u, .vStr a, .vBool b1, .vBool b2, .vNum t⟩ = .ok (.vBool c) →
       (POST ⟨true, some u, some (.ok (postBody (.vStr a) (.vBool b1) (.vBool b2) (.vNum t)))⟩
           store).1 =
         ⟨200, .vObj [("isCorrect", .vBool c)]⟩) ∧
    (∀ v : JsValue, store ⟨u, .vStr a, .vBool b1, .vBool b2, .vNum t⟩ = .ok v →
       jsTypeof v ≠ "boolean" →
       (POST ⟨true, some u, some (.ok (postBody (.vStr a) (.vBool b1) (.vBool b2) (.vNum t)))⟩
           store).1 =
         ⟨404, errBody "User response not stored"⟩) := by
  rw [POST_postBody_valid u a b1 b2 t store hu ha]
  constructor
  · intro c hc
    simp [hc, jsTypeof]
  · intro v hv hnb
    simp [hv, hnb]

/-- Witness for `POST_store_result_mapping` at a concrete request. -/
theorem POST_store_result_mapping_witness :
    (POST ⟨true, some "u1", some (.ok (postBody (.vStr "a1") (.vBool true) (.vBool false)
        (.vNum 7)))⟩ (fun _ => .ok (.vBool true))).1 =
      ⟨200, .vObj [("isCorrect", .vBool true)]⟩ :=
  (POST_store_result_mapping "u1" "a1" true false 7 (fun _ => .ok (.vBool true))
    (by decide) (by decide)).1 true rfl

/-- C7: a POST request whose `timeToRespond` is not a number (e.g. a
string) is rejected with 400 `{error: "Invalid time to respond"}` whenever
the other fields are valid. -/
theorem POST_nonnumber_timeToRespond (u a : String) (b1 b2 : Bool) (v : JsValue)
    (store : StoreArgs → JsOutcome) (hu : u ≠ "") (ha : a ≠ "")
    (hv : jsTypeof v ≠ "number") :
    (POST ⟨true, some u, some (.ok (postBody (.vStr a) (.vBool b1) (.vBool b2) v))⟩
        store).1 =
      ⟨400, errBody "Invalid time to respond"⟩ := by
  unfold POST
  simp [optStrTruthy, optStrTypeof, hu, ha, hv, jsField_postBody_articleUid,
    jsField_postBody_isHuman, jsField_postBody_isFake, jsField_postBody_time,
    jsDestructurable_postBody, jsTruthy_vStr, jsTypeof_vStr, jsTypeof_vBool]

/-- Witness for `POST_nonnumber_timeToRespond` at a concrete request with
a string `timeToRespond`. -/
theorem POST_nonnumber_timeToRespond_witness :
    (POST ⟨true, some "u1", some (.ok (postBody (.vStr "a1") (.vBool true) (.vBool true)
        (.vStr "5")))⟩ (fun _ => .ok (.vBool true))).1 =
      ⟨400, errBody "Invalid time to respond"⟩ :=
  POST_nonnumber_timeToRespond "u1" "a1" true true (.vStr "5")
    (fun _ => .ok (.vBool true)) (by decide) (by decide) (by decide)

/-- C1 counterexample: a POST request whose body is present but not
parseable as JSON makes `req.json()` throw, which the catch block maps to
500 `{error: "Internal Server Error"}` — not to a 400 as the claim states
for every failure of the validation chain. -/
theorem POST_unparseable_body_gives_500 :
    ((POST ⟨true, some "user1", some (.error ())⟩ (fun _ => .ok (.vBool true))).1.status
        = 500) ∧
    ((POST ⟨true, some "user1", some (.error ())⟩ (fun _ => .ok (.vBool true))).1.status
        ≠ 400) ∧
    ((POST ⟨true, some "user1", some (.error ())⟩ (fun _ => .ok (.vBool true))).1.body
        = errBody "Internal Server Error") :=
  ⟨rfl, by decide, rfl⟩

/-- C1 (amended): the POST validations run in the stated order with the
first failure winning, and each missing or mistyped input yields 400 with
its specific message — except that a body that is present but not
parseable as JSON yields 500 (`req.json()` throws inside the try block),
and a body that parses to JSON `null` or `undefined` also yields 500 (the
destructuring of the parsed value throws), not 400. -/
theorem POST_validation_order (store : StoreArgs → JsOutcome) :
    (∀ uid body, (POST ⟨false, uid, body⟩ store).1 =
       ⟨400, errBody "Invalid query parameters"⟩) ∧
    (∀ uid body, optStrTruthy uid = false →
       (POST ⟨true, uid, body⟩ store).1 = ⟨400, errBody "User ID is required"⟩) ∧
    (∀ u : String, u ≠ "" →
       (POST ⟨true, some u, none⟩ store).1 = ⟨400, errBody "Invalid request body"⟩) ∧
    (∀ u : String, u ≠ "" →
       (POST ⟨true, some u, some (.error ())⟩ store).1 =
         ⟨500, errBody "Internal Server Error"⟩) ∧
    (∀ (u : String) (json : JsValue), u ≠ "" → jsDestructurable json = false →
       (POST ⟨true, some u, some (.ok json)⟩ store).1 =
         ⟨500, errBody "Internal Server Error"⟩) ∧
    (∀ (u : String) (json : JsValue), u ≠ "" → jsDestructurable json = true →
       jsTruthy (jsField json "articleUid") = false →
       (POST ⟨true, some u, some (.ok json)⟩ store).1 =
         ⟨400, errBody "Article ID is required"⟩) ∧
    (∀ (u : String) (json : JsValue), u ≠ "" → jsDestructurable json = true →
       jsTruthy (jsField json "articleUid") = true →
       jsTypeof (jsField json "articleUid") ≠ "string" →
       (POST ⟨true, some u, some (.ok json)⟩ store).1 =
         ⟨400, errBody "Invalid Article ID"⟩) ∧
    (∀ (u : String) (json : JsValue), u ≠ "" → jsDestructurable json = true →
       jsTruthy (jsField json "articleUid") = true →
       jsTypeof (jsField json "articleUid") = "string" →
       jsTypeof (jsField json "userRespondedIsHuman") ≠ "boolean" →
       (POST ⟨true, some u, some (.ok json)⟩ store).1 =
         ⟨400, errBody "Invalid user response"⟩) ∧
    (∀ (u : String) (json : JsValue), u ≠ "" → jsDestructurable json = true →
       jsTruthy (jsField json "articleUid") = true →
       jsTypeof (jsField json "articleUid") = "string" →
       jsTypeof (jsField json "userRespondedIsHuman") = "boolean" →
       jsTypeof (jsField json "userRespondedIsFake") ≠ "boolean" →
       (POST ⟨true, some u, some (.ok json)⟩ store).1 =
         ⟨400, errBody "Invalid user response"⟩) ∧
    (∀ (u : String) (json : JsValue), u ≠ "" → jsDestructurable json = true →
       jsTruthy (jsField json "articleUid") = true →
       jsTypeof (jsField json "articleUid") = "string" →
       jsTypeof (jsField json "userRespondedIsHuman") = "boolean" →
       jsTypeof (jsField json "userRespondedIsFake") = "boolean" →
       jsTypeof (jsField json "timeToRespond") ≠ "number" →
       (POST ⟨true, some u, some (.ok json)⟩ store).1 =
         ⟨400, errBody "Invalid time to respond"⟩) := by
  refine ⟨fun uid body => rfl, ?_, ?_, ?_, ?_, ?_, ?_, ?_, ?_, ?_⟩
  · intro uid body h
    unfold POST
    simp [h]
  · intro u hu
    unfold POST
    simp [optStrTruthy, optStrTypeof, hu]
  · intro u hu
    unfold POST
    simp [optStrTruthy, optStrTypeof, hu]
  · intro u json hu hd
    unfold POST
    simp [optStrTruthy, optStrTypeof, hu, hd]
  · intro u json hu hd ha
    unfold POST
    simp [optStrTruthy, optStrTypeof, hu, hd, ha]
  · intro u json hu hd ha hat
    unfold POST
    simp [optStrTruthy, optStrTypeof, hu, hd, ha, hat]
  · intro u json hu hd ha hat hh
    unfold POST
    simp [optStrTruthy, optStrTypeof, hu, hd, ha, hat, hh]
  · intro u json hu hd ha hat hh hf
    unfold POST
    simp [optStrTruthy, optStrTypeof, hu, hd, ha, hat, hh, hf]
  · intro u json hu hd ha hat hh hf ht
    unfold POST
    simp [optStrTruthy, optStrTypeof, hu, hd, ha, hat, hh, hf, ht]

/-- Witness for `POST_validation_order` at a concrete request whose
`articleUid` is missing. -/
theorem POST_validation_order_witness :
    (POST ⟨true, some "u1", some (.ok (.vObj []))⟩ (fun _ => .ok (.vBool true))).1 =
      ⟨400, errBody "Article ID is required"⟩ :=
  (POST_validation_order (fun _ => .ok (.vBool true))).2.2.2.2.2.1 "u1" (.vObj [])
    (by decide) rfl rfl

/-- C8: a thrown failure in either handler — the collaborator throwing in
GET, the body parse throwing in POST, or the collaborator throwing in
POST — is caught and flattened to exactly 500
`{error: "Internal Server Error"}`. -/
theorem handlers_map_thrown_failures_to_500 :
    (∀ (u l : String) (f : String → JsOutcome), u ≠ "" → l ≠ "" →
       f u = .error () →
       (GET ⟨true, some u, some l⟩ f).1 = ⟨500, errBody "Internal Server Error"⟩) ∧
    (∀ (u : String) (store : StoreArgs → JsOutcome), u ≠ "" →
       (POST ⟨true, some u, some (.error ())⟩ store).1 =
         ⟨500, errBody "Internal Server Error"⟩) ∧
    (∀ (u a : String) (b1 b2 : Bool) (t : Int) (store : StoreArgs → JsOutcome),
       u ≠ "" → a ≠ "" →
       store ⟨u, .vStr a, .vBool b1, .vBool b2, .vNum t⟩ = .error () →
       (POST ⟨true, some u,
           some (.ok (postBody (.vStr a) (.vBool b1) (.vBool b2) (.vNum t)))⟩ store).1 =
         ⟨500, errBody "Internal Server Error"⟩) := by
  refine ⟨?_, ?_, ?_⟩
  · intro u l f hu hl hf
    unfold GET
    simp [optStrTruthy, optStrTypeof, hu, hl, hf]
  · intro u store hu
    unfold POST
    simp [optStrTruthy, optStrTypeof, hu]
  · intro u a b1 b2 t store hu ha hs
    rw [POST_postBody_valid u a b1 b2 t store hu ha]
    simp [hs]

/-- Witness for `handlers_map_thrown_failures_to_500` at a concrete GET
request whose collaborator throws. -/
theorem handlers_map_thrown_failures_to_500_witness :
    (GET ⟨true, some "u1", some "en"⟩ (fun _ => .error ())).1 =
      ⟨500, errBody "Internal Server Error"⟩ :=
  handlers_map_thrown_failures_to_500.1 "u1" "en" (fun _ => .error ())
    (by decide) (by decide) rfl

set_option maxHeartbeats 2000000 in
/-- C10: a POST request answered with status 400 never calls
`storeUserResponse` — every validation failure returns before the single
store call. -/
theorem POST_400_never_calls_store (req : PostRequest)
    (store : StoreArgs → JsOutcome) :
    (POST req store).1.status = 400 → (POST req store).2 = [] := by
  intro h
  rcases hP : POST req store with ⟨r, calls⟩
  rw [hP] at h
  dsimp only at h ⊢
  unfold POST at hP
  repeat' (first | split at hP | dsimp only at hP)
  all_goals injection hP with h1 h2
  all_goals subst h1
  all_goals subst h2
  all_goals simp_all

/-- Witness for `POST_400_never_calls_store` at a concrete 400 request. -/
theorem POST_400_never_calls_store_witness :
    (POST ⟨true, none, none⟩ (fun _ => .ok (.vBool true))).2 = [] :=
  POST_400_never_calls_store ⟨true, none, none⟩ (fun _ => .ok (.vBool true)) rfl

/-- C3: the submit control is disabled exactly when a selector is null and
enabled exactly when both are set; clicking with both set invokes the
callback exactly once with `humanOptionSelected = (selection = "human")`
and `isFakeSelected = (selection = "fake")`; in particular `ai`/`real`
maps to `{humanOptionSelected: false, isFakeSelected: false}`. -/
theorem quizView_submit_contract :
    (∀ p : QuizViewProps, submitDisabled p = true ↔
       (p.humanAiOptionChecked = none ∨ p.realFakeOptionChecked = none)) ∧
    (∀ (s : QuizSession) (h : HumanAiOption) (r : RealFakeOption),
       submitClick ⟨s, some h, some r⟩ =
         [⟨decide (h = HumanAiOption.human), decide (r = RealFakeOption.fake)⟩]) ∧
    (∀ s : QuizSession,
       submitClick ⟨s, some HumanAiOption.ai, some RealFakeOption.real⟩ =
         [⟨false, false⟩]) := by
  refine ⟨?_, fun s h r => rfl, fun s => rfl⟩
  intro p
  rcases p with ⟨s, ha, rf⟩
  cases ha <;> cases rf <;> simp [submitDisabled]

/-- Witness for `quizView_submit_contract` at the spec's example: a
session of 3 articles at index 1 with `ai` and `real` selected. -/
theorem quizView_submit_contract_witness :
    submitClick ⟨⟨[⟨"a1", "h1", "c1"⟩, ⟨"a2", "h2", "c2"⟩, ⟨"a3", "h3", "c3"⟩], 1⟩,
        some HumanAiOption.ai, some RealFakeOption.real⟩ = [⟨false, false⟩] :=
  quizView_submit_contract.2.2
    ⟨[⟨"a1", "h1", "c1"⟩, ⟨"a2", "h2", "c2"⟩, ⟨"a3", "h3", "c3"⟩], 1⟩

/-- C9: the click handler itself rechecks the selectors — with either
selector null it makes no callback call, independently of the `disabled`
attribute. -/
theorem quizView_no_callback_when_unset (p : QuizViewProps)
    (h : p.humanAiOptionChecked = none ∨ p.realFakeOptionChecked = none) :
    submitClick p = [] := by
  rcases p with ⟨s, ha, rf⟩
  rcases h with h | h
  · simp only at h
    subst h
    cases rf <;> rfl
  · simp only at h
    subst h
    cases ha <;> rfl

/-- Witness for `quizView_no_callback_when_unset` at a concrete state with
only the real/fake selector set. -/
theorem quizView_no_callback_when_unset_witness :
    submitClick ⟨⟨[], 0⟩, none, some RealFakeOption.fake⟩ = [] :=
  quizView_no_callback_when_unset ⟨⟨[], 0⟩, none, some RealFakeOption.fake⟩
    (Or.inl rfl)

end JudgeGptQuiz
